import Mathlib

/-!
Shallow embedding of the backend resource-supervision layer of the
my-kanban desktop application (src-tauri/src): the git shell helpers
(git_shell.rs), the file/workspace watcher (file_watcher.rs) and the
terminal session manager (terminal.rs).  Rust strings are modelled by
Lean strings (with char-list views where Rust indexes by UTF-8 byte),
the external git process by an oracle mapping argument lists to
results, and the two keyed registries by association lists with unique
keys.
-/

/-- The set of characters accepted by Rust `char::is_whitespace`
(the Unicode White_Space property). -/
def rustWhitespace (c : Char) : Bool :=
  let n := c.toNat
  n = 0x9 || n = 0xA || n = 0xB || n = 0xC || n = 0xD || n = 0x20 ||
    n = 0x85 || n = 0xA0 || n = 0x1680 || (0x2000 ≤ n && n ≤ 0x200A) ||
    n = 0x2028 || n = 0x2029 || n = 0x202F || n = 0x205F || n = 0x3000

/-- Rust `str::trim`: remove leading and trailing whitespace. -/
def rust_trim (s : String) : String :=
  String.mk (((s.toList.dropWhile rustWhitespace).reverse.dropWhile rustWhitespace).reverse)

/-- Split a character list at newline characters (every piece kept,
including a final empty piece after a trailing newline). -/
def splitNl : List Char → List (List Char)
  | [] => [[]]
  | c :: rest =>
    if c = '\n' then [] :: splitNl rest
    else
      match splitNl rest with
      | [] => [[c]]
      | l :: ls => (c :: l) :: ls

/-- Strip one trailing carriage return: applied by Rust `str::lines`
to a line that was terminated by a newline (the carriage return of a
CRLF ending). -/
def stripCR (l : List Char) : List Char :=
  match l.getLast? with
  | some c => if c = '\r' then l.dropLast else l
  | none => l

/-- Rust `str::lines` over a character list.  Every piece produced by
`splitNl` except the final one was terminated by a newline, so a
carriage return preceding that newline is stripped; the final piece
has no terminator: it is dropped when empty and otherwise kept
verbatim, a trailing carriage return included. -/
def rustLines (cs : List Char) : List (List Char) :=
  match (splitNl cs).reverse with
  | [] => []
  | lastPiece :: revInit =>
    let init := revInit.reverse.map stripCR
    if lastPiece = [] then init else init ++ [lastPiece]

/-- Split a character list at path separators (every piece kept). -/
def splitSlash : List Char → List (List Char)
  | [] => [[]]
  | c :: rest =>
    if c = '/' then [] :: splitSlash rest
    else
      match splitSlash rest with
      | [] => [[c]]
      | l :: ls => (c :: l) :: ls

/-- The components of a Unix path string: split at the separator,
dropping empty pieces and bare current-directory components.  Models
Rust `std::path` component iteration for the paths considered here. -/
def pathComponents (s : String) : List String :=
  ((splitSlash s.toList).map String.mk).filter (fun c => c != "" && c != ".")

/-- Rust `Path::file_name` (Unix): the last component, unless it is a
parent-directory reference or the path has no components. -/
def rustFileName (s : String) : Option String :=
  match (pathComponents s).getLast? with
  | some c => if c = ".." then none else some c
  | none => none

/-- Rust `Path::parent().is_some()` (Unix): false exactly for the empty
path and the root (a path consisting only of separators), for paths
without bare current-directory components. -/
def rustHasParent (s : String) : Bool :=
  s != "" && s.toList.any (fun c => c != '/')

/-- Drop the first `k` UTF-8 bytes of a character list, as Rust slicing
`line[k..]` does: `none` models the panic that occurs when byte index
`k` does not fall on a character boundary (or lies past the end). -/
def byteDrop : Nat → List Char → Option (List Char)
  | 0, cs => some cs
  | _ + 1, [] => none
  | k + 1, c :: cs =>
    if c.utf8Size ≤ k + 1 then byteDrop (k + 1 - c.utf8Size) cs else none

/-! ## git_shell.rs: the timeout-bounded process runner -/

/-- The observable outcome of spawning and waiting on the external git
process, abstracting the OS interaction in `run_git_command`. -/
inductive ProcOutcome where
  | spawnFailed (msg : String)
  | waitFailed (msg : String)
  | exited (success : Bool) (stdout stderr : String)
  | timedOut
deriving DecidableEq

/-- `run_git_command` (git_shell.rs lines 34-77): result paired with
whether `child.kill()` was invoked.  Logging to stderr is omitted as it
has no observable effect on the result. -/
def run_git_command (timeout_secs : Nat) (o : ProcOutcome) :
    Except String String × Bool :=
  match o with
  | .spawnFailed e =>
    (.error ("Failed to execute git: " ++ e ++ ". Make sure Git is installed."), false)
  | .waitFailed e => (.error ("Error waiting for git: " ++ e), false)
  | .exited true out _ => (.ok out, false)
  | .exited false _ err => (.error err, false)
  | .timedOut =>
    (.error ("Git operation timed out after " ++ toString timeout_secs ++ " seconds"), true)

/-! ## git_shell.rs: composed git operations over a command oracle

A workspace (its git state) is abstracted as an oracle mapping a git
argument list to the result `run_git_command` returns for it.  Each
composed operation yields its overall result together with the trace
of (argument list, timeout) invocations it performed, in order. -/

/-- The behaviour of `run_git_command` for one workspace, as a function
of the argument list. -/
def Oracle : Type := List String → Except String String

/-- A computation that invokes git commands: overall result plus the
ordered trace of invocations (argument list, timeout in seconds). -/
structure GitRun (α : Type) where
  res : Except String α
  trace : List (List String × Nat)

/-- Invoke one git command and record it (a `run_git_command(...)?`
call site). -/
def runCmd (g : Oracle) (args : List String) (t : Nat) : GitRun String :=
  ⟨g args, [(args, t)]⟩

/-- Invoke one git command, record it, and keep only whether it
succeeded (a `run_git_command(...).is_ok()` call site). -/
def tryCmd (g : Oracle) (args : List String) (t : Nat) : GitRun Bool :=
  ⟨.ok (g args).isOk, [(args, t)]⟩

/-- Sequencing with the early return of the Rust `?` operator. -/
def GitRun.bind {α β : Type} (x : GitRun α) (f : α → GitRun β) : GitRun β :=
  match x.res with
  | .error e => ⟨.error e, x.trace⟩
  | .ok a => ⟨(f a).res, x.trace ++ (f a).trace⟩

/-- The argument list of `git branch --show-current`. -/
def branchCmd : List String := ["branch", "--show-current"]

/-- The argument list of the upstream probe
`git rev-parse --abbrev-ref BRANCH@\x7bu\x7d`. -/
def probeCmd (branch : String) : List String :=
  ["rev-parse", "--abbrev-ref", branch ++ "@\x7bu\x7d"]

/-- `git_push` (git_shell.rs lines 80-99). -/
def git_push (g : Oracle) (remote_name : Option String) : GitRun Unit :=
  let remote := remote_name.getD "origin"
  GitRun.bind (runCmd g branchCmd 5) (fun branchOut =>
    let branch := rust_trim branchOut
    GitRun.bind (tryCmd g (probeCmd branch) 5) (fun has_upstream =>
      if has_upstream then
        GitRun.bind (runCmd g ["push", remote, branch] 30) (fun _ => ⟨.ok (), []⟩)
      else
        GitRun.bind (runCmd g ["push", "-u", remote, branch] 30) (fun _ => ⟨.ok (), []⟩)))

/-- `git_pull` (git_shell.rs lines 101-112). -/
def git_pull (g : Oracle) (remote_name : Option String) : GitRun Unit :=
  let remote := remote_name.getD "origin"
  GitRun.bind (runCmd g branchCmd 5) (fun branchOut =>
    let branch := rust_trim branchOut
    GitRun.bind (runCmd g ["pull", remote, branch] 30) (fun _ => ⟨.ok (), []⟩))

/-- `git_sync` (git_shell.rs lines 260-272): detect branch, pull, then
a plain push. -/
def git_sync (g : Oracle) (remote_name : Option String) : GitRun Unit :=
  let remote := remote_name.getD "origin"
  GitRun.bind (runCmd g branchCmd 5) (fun branchOut =>
    let branch := rust_trim branchOut
    GitRun.bind (runCmd g ["pull", remote, branch] 30) (fun _ =>
      GitRun.bind (runCmd g ["push", remote, branch] 30) (fun _ => ⟨.ok (), []⟩)))

/-- The composition the spec describes for sync: the pull operation
followed by the push operation with the same arguments.  This follows
the words of the spec and is compared against `git_sync` above. -/
def pullThenPush (g : Oracle) (remote_name : Option String) : GitRun Unit :=
  GitRun.bind (git_pull g remote_name) (fun _ => git_push g remote_name)

/-! ## git_shell.rs: status parsing -/

/-- Processing of one porcelain status line inside `git_get_status`
(git_shell.rs lines 204-231).  Outer `none` models the panic of the
byte slice `line[3..]`; `some none` is a skipped line (empty or fewer
than three characters); `some (some (x, y, f))` is a split line with
staged-status character `x`, unstaged-status character `y` and
filename characters `f`. -/
def processLine (line : List Char) : Option (Option (Char × Char × List Char)) :=
  if line.length < 3 then some none
  else
    match byteDrop 3 line with
    | none => none
    | some rest => some (some (line.getD 0 ' ', line.getD 1 ' ', rest))

/-- The status loop of `git_get_status`: tallies of modified (unstaged)
and staged entries and the list of filenames, or `none` when a line
panics.  A staged-status character counts when it is neither a space
nor a question mark; an unstaged-status character counts when it is
not a space. -/
def statusFold : List (List Char) → Option (Nat × Nat × List (List Char))
  | [] => some (0, 0, [])
  | line :: rest =>
    match processLine line with
    | none => none
    | some none => statusFold rest
    | some (some (staged_char, unstaged_char, fname)) =>
      match statusFold rest with
      | none => none
      | some (m, st, files) =>
        some ((if unstaged_char ≠ ' ' then m + 1 else m),
              (if staged_char ≠ ' ' ∧ staged_char ≠ '?' then st + 1 else st),
              fname :: files)

/-- The pure parsing core of `git_get_status` applied to the porcelain
output string: (modified_count, staged_count, modified_files), or
`none` when parsing panics. -/
def git_get_status_parse (status_output : String) :
    Option (Nat × Nat × List String) :=
  (statusFold (rustLines status_output.toList)).map
    (fun r => (r.1, r.2.1, r.2.2.map String.mk))

/-- The `GitStatus` value assembled at the end of `git_get_status`
(git_shell.rs lines 248-256). -/
structure GitStatus where
  branch : String
  modified_count : Nat
  staged_count : Nat
  ahead : Nat
  behind : Nat
  is_clean : Bool
  modified_files : List String
deriving DecidableEq

/-- Assembly of the `GitStatus` result: cleanliness is defined as both
tallies being zero. -/
def mkGitStatus (branch : String) (m st a b : Nat) (files : List String) : GitStatus :=
  { branch := branch, modified_count := m, staged_count := st, ahead := a,
    behind := b, is_clean := decide (m = 0) && decide (st = 0),
    modified_files := files }

/-! ## file_watcher.rs: the debounced watcher callback -/

/-- One path reported by a debounced filesystem event, as the callback
consumes it: the lossy full-path string and the optional filename
component (Rust `Path::file_name`, lossily decoded). -/
structure EventPath where
  full : String
  name : Option String
deriving DecidableEq

/-- One debounced event: the list of paths it reports. -/
structure DebEvent where
  paths : List EventPath
deriving DecidableEq

/-- Rust `str::ends_with` on valid UTF-8 strings: byte-suffix equality
for valid UTF-8 coincides with character-list suffix equality. -/
def ends_with (s suffix : String) : Bool :=
  suffix.toList.isSuffixOf s.toList

/-- The per-path match test of the watch_file callback
(file_watcher.rs lines 63-86), parameterised by the Unicode NFC
normalization function `nfc` (the external
unicode_normalization library): the normalized event path ends with
the normalized target filename, or the normalized filename component
equals the normalized target filename. -/
def pathMatches (nfc : String → String) (target : String) (p : EventPath) : Bool :=
  ends_with (nfc p.full) (nfc target) ||
    (match p.name with
     | some n => nfc n == nfc target
     | none => false)

/-- The should_emit computation of the watch_file callback over one
debounced event batch (file_watcher.rs lines 54-92). -/
def shouldEmit (nfc : String → String) (target : String) (events : List DebEvent) : Bool :=
  events.any (fun e => e.paths.any (pathMatches nfc target))

/-- The events emitted (event name, payload) by the watch_file
callback for one delivered batch (file_watcher.rs lines 51-100):
`file_path` is the originally requested path captured by the closure,
`target` its filename component. -/
def watcherCallback (nfc : String → String) (file_path target : String)
    (events : List DebEvent) : List (String × String) :=
  if shouldEmit nfc target events then [("file-changed", file_path)] else []

/-! ## file_watcher.rs: the watch registry -/

/-- The closure state a registry entry keeps alive: a single-file
watcher holds the requested path and its filename component, a
workspace watcher holds the workspace path. -/
inductive WatchEntry where
  | fileWatch (file_path file_name : String)
  | workspaceWatch (workspace_path : String)
deriving DecidableEq

/-- Whether the OS-level steps of registering a watcher fail:
debouncer creation (new_debouncer) and directory watching
(watcher().watch), abstracted as optional error texts. -/
structure WatchEnv where
  createErr : Option String
  watchErr : Option String
deriving DecidableEq

/-- Key lookup in an association-list registry (HashMap contains_key). -/
def containsKey {α : Type} (reg : List (String × α)) (k : String) : Bool :=
  reg.any (fun kv => kv.1 == k)

/-- The registry key used for a single-file registration: the literal
requested path (file_watcher.rs line 112 inserts file_path itself). -/
def fileKey (file_path : String) : String := file_path

/-- The registry key used for a workspace registration
(file_watcher.rs line 122): the scope marker prefixed to the path. -/
def workspaceKey (workspace_path : String) : String :=
  "workspace:" ++ workspace_path

/-- `FileWatcherManager::watch_file` (file_watcher.rs lines 24-115):
result together with the registry after the call. -/
def watch_file (env : WatchEnv) (reg : List (String × WatchEntry))
    (file_path : String) : Except String Unit × List (String × WatchEntry) :=
  if ¬ rustHasParent file_path then (.error "File has no parent directory", reg)
  else
    match rustFileName file_path with
    | none => (.error "Invalid file path", reg)
    | some file_name =>
      if containsKey reg (fileKey file_path) then (.ok (), reg)
      else
        match env.createErr with
        | some e => (.error ("Failed to create file watcher: " ++ e), reg)
        | none =>
          match env.watchErr with
          | some e => (.error ("Failed to watch directory: " ++ e), reg)
          | none =>
            (.ok (), reg ++ [(fileKey file_path, .fileWatch file_path file_name)])

/-- `FileWatcherManager::watch_workspace` (file_watcher.rs lines
117-172). -/
def watch_workspace (env : WatchEnv) (reg : List (String × WatchEntry))
    (workspace_path : String) : Except String Unit × List (String × WatchEntry) :=
  if containsKey reg (workspaceKey workspace_path) then (.ok (), reg)
  else
    match env.createErr with
    | some e => (.error ("Failed to create workspace watcher: " ++ e), reg)
    | none =>
      match env.watchErr with
      | some e => (.error ("Failed to watch workspace: " ++ e), reg)
      | none =>
        (.ok (), reg ++ [(workspaceKey workspace_path, .workspaceWatch workspace_path)])

/-! ## terminal.rs: the session registry -/

/-- The state of one terminal session as `write_terminal` observes it:
whether the next write or flush on its pty writer fails, and the
chunks successfully written so far (each chunk is written as its UTF-8
bytes and flushed). -/
structure TermSession where
  writeErr : Option String
  flushErr : Option String
  written : List String
deriving DecidableEq

/-- Lookup in the session registry (HashMap get). -/
def lookupKey {α : Type} : List (String × α) → String → Option α
  | [], _ => none
  | (k2, v) :: rest, k => if k2 = k then some v else lookupKey rest k

/-- Removal from a registry (HashMap remove: the key is gone
afterwards). -/
def removeKey {α : Type} (reg : List (String × α)) (k : String) : List (String × α) :=
  reg.filter (fun kv => kv.1 != k)

/-- In-place mutation of the session stored under a key (the Rust code
mutates the session through its shared writer handle). -/
def updateKey {α : Type} (reg : List (String × α)) (k : String) (v : α) :
    List (String × α) :=
  reg.map (fun kv => if kv.1 = k then (kv.1, v) else kv)

/-- `TerminalManager::write_terminal` (terminal.rs lines 113-126):
looks the session up, writes the bytes of `data`, then flushes. -/
def write_terminal (reg : List (String × TermSession)) (session_id data : String) :
    Except String Unit × List (String × TermSession) :=
  match lookupKey reg session_id with
  | none => (.error "Session not found", reg)
  | some s =>
    match s.writeErr with
    | some e => (.error e, reg)
    | none =>
      let reg2 := updateKey reg session_id { s with written := s.written ++ [data] }
      match s.flushErr with
      | some e => (.error e, reg2)
      | none => (.ok (), reg2)

/-- `TerminalManager::resize_terminal` (terminal.rs lines 128-137):
ignores all three arguments and returns success, leaving the registry
untouched. -/
def resize_terminal (reg : List (String × TermSession)) (_session_id : String)
    (_cols _rows : Nat) : Except String Unit × List (String × TermSession) :=
  (.ok (), reg)

/-- `TerminalManager::close_terminal` (terminal.rs lines 139-143):
removes the session (if present) and always succeeds. -/
def close_terminal (reg : List (String × TermSession)) (session_id : String) :
    Except String Unit × List (String × TermSession) :=
  (.ok (), removeKey reg session_id)

/-! ## Concrete fixtures used in witnesses and counterexamples -/

/-- A workspace whose current branch main has no upstream configured:
the probe fails, the plain push is rejected by git, the push with the
upstream-setting flag succeeds. -/
def oracleNoUp : Oracle := fun args =>
  if args = branchCmd then .ok "main\n"
  else if args = probeCmd "main" then
    .error "fatal: no upstream configured for branch main"
  else if args = ["pull", "origin", "main"] then .ok ""
  else if args = ["push", "origin", "main"] then
    .error "fatal: The current branch main has no upstream branch."
  else if args = ["push", "-u", "origin", "main"] then .ok ""
  else .error "unexpected command"

/-- A workspace whose current branch main has an upstream configured:
the probe and all pushes and pulls succeed. -/
def oracleUp : Oracle := fun args =>
  if args = branchCmd then .ok "main\n"
  else if args = probeCmd "main" then .ok "origin/main"
  else if args = ["pull", "origin", "main"] then .ok ""
  else if args = ["push", "origin", "main"] then .ok ""
  else .error "unexpected command"

/-- An environment in which watcher creation and directory watching
succeed. -/
def envOk : WatchEnv := ⟨none, none⟩

/-- An environment in which watcher creation and directory watching
would both fail, were they attempted. -/
def envBad : WatchEnv := ⟨some "boom", some "boom"⟩

/-- A registry already holding a single-file registration for
a/b.txt. -/
def regOne : List (String × WatchEntry) :=
  [("a/b.txt", .fileWatch "a/b.txt" "b.txt")]

/-- A session registry with one live, healthy session s1 and one
session s2 whose writer fails. -/
def termReg : List (String × TermSession) :=
  [("s1", ⟨none, none, ["ls\n"]⟩), ("s2", ⟨some "broken pipe", none, []⟩)]

/-- A single debounced batch reporting an atomic-save rename whose
destination is the watched file. -/
def cexEvents : List DebEvent :=
  [⟨[⟨"/x/.tmp123", some ".tmp123"⟩, ⟨"/x/notes.md", some "notes.md"⟩]⟩]

/-! ## Helper lemmas -/

/-- Character-list view of string concatenation. -/
theorem string_toList_append (a b : String) :
    (a ++ b).toList = a.toList ++ b.toList := by
  simp [String.toList]

/-- A line of fewer than three characters is skipped by the status
loop. -/
theorem processLine_skip (line : List Char) (hlen : line.length < 3) :
    processLine line = some none := by
  simp [processLine, hlen]

/-- A line of at least three characters whose first three characters
are single-byte is split into its first character, its second
character, and the remainder after the first three characters. -/
theorem processLine_split (line : List Char) (hlen : 3 ≤ line.length)
    (hall : (line.take 3).all (fun c => c.utf8Size == 1) = true) :
    processLine line = some (some (line.getD 0 ' ', line.getD 1 ' ', line.drop 3)) := by
  rcases line with _ | ⟨c0, _ | ⟨c1, _ | ⟨c2, rest⟩⟩⟩
  · simp at hlen
  · simp at hlen
  · simp at hlen
  · simp only [List.take, List.all_cons, List.all_nil, Bool.and_eq_true, beq_iff_eq] at hall
    obtain ⟨h0, h1, h2, -⟩ := hall
    simp [processLine, byteDrop, h0, h1, h2, List.getD]

/-- The per-path match test, phrased propositionally. -/
theorem pathMatches_iff (nfc : String → String) (t : String) (p : EventPath) :
    pathMatches nfc t p = true ↔
      (ends_with (nfc p.full) (nfc t) = true ∨ ∃ n, p.name = some n ∧ nfc n = nfc t) := by
  cases hn : p.name <;> simp [pathMatches, hn]

/-- The batch-level emission condition, phrased propositionally. -/
theorem shouldEmit_iff (nfc : String → String) (t : String) (events : List DebEvent) :
    shouldEmit nfc t events = true ↔
      ∃ e ∈ events, ∃ p ∈ e.paths,
        (ends_with (nfc p.full) (nfc t) = true ∨ ∃ n, p.name = some n ∧ nfc n = nfc t) := by
  simp [shouldEmit, List.any_eq_true, pathMatches_iff]

/-- After removing a key, looking it up yields nothing. -/
theorem lookupKey_removeKey {α : Type} (reg : List (String × α)) (k : String) :
    lookupKey (removeKey reg k) k = none := by
  induction reg with
  | nil => rfl
  | cons kv rest ih =>
    by_cases hk : kv.1 = k
    · simpa [removeKey, hk] using ih
    · simpa [removeKey, lookupKey, hk] using ih

/-! ## Claim theorems -/

/-- C3: if the git process exits within the bound with status zero the
runner returns the captured stdout; on non-zero exit it fails with the
captured stderr as the error detail; when the timeout elapses the
child is killed and the runner fails with a timeout message annotated
with the bound in seconds. -/
theorem run_git_command_outcomes (t : Nat) (out err : String) :
    run_git_command t (.exited true out err) = (Except.ok out, false) ∧
    run_git_command t (.exited false out err) = (Except.error err, false) ∧
    run_git_command t .timedOut =
      (Except.error ("Git operation timed out after " ++ toString t ++ " seconds"), true) :=
  ⟨rfl, rfl, rfl⟩

/-- C9: resize_terminal succeeds on every input, including unknown
session identifiers, and returns the registry unchanged: it performs
no lookup, no validation and no effect. -/
theorem resize_terminal_noop (reg : List (String × TermSession)) (sid : String)
    (cols rows : Nat) :
    resize_terminal reg sid cols rows = (Except.ok (), reg) :=
  rfl

/-- C2: the porcelain input with a staged modification of a.txt and an
untracked b.txt parses to modified_count 1, staged_count 1 and
modified_files a.txt, b.txt; cleanliness holds exactly when both
tallies are zero; and every non-empty line of at least three (porcelain,
hence single-byte) characters is split into a staged-status character,
an unstaged-status character and a filename. -/
theorem git_status_parse_spec :
    git_get_status_parse "M  a.txt\n?? b.txt\n" = some (1, 1, ["a.txt", "b.txt"]) ∧
    (∀ branch m st a b files,
      (mkGitStatus branch m st a b files).is_clean = true ↔ m = 0 ∧ st = 0) ∧
    (∀ line : List Char, line ≠ [] → 3 ≤ line.length →
      (line.take 3).all (fun c => c.utf8Size == 1) = true →
      processLine line = some (some (line.getD 0 ' ', line.getD 1 ' ', line.drop 3))) := by
  refine ⟨by decide, ?_, ?_⟩
  · intro branch m st a b files
    simp [mkGitStatus]
  · intro line _ hlen hall
    exact processLine_split line hlen hall

/-- Closed witness for C2: the second and third conjuncts applied at
concrete inputs. -/
theorem git_status_parse_spec_witness :
    ((mkGitStatus "main" 0 0 0 0 []).is_clean = true ↔ 0 = 0 ∧ 0 = 0) ∧
    processLine "M  a.txt".toList =
      some (some ('M', ' ', " a.txt".toList.drop 1)) := by
  constructor
  · exact git_status_parse_spec.2.1 "main" 0 0 0 0 []
  · have h := git_status_parse_spec.2.2 "M  a.txt".toList (by decide) (by decide) (by decide)
    rw [h]
    decide

/-- C10 counterexample: a status line whose third byte falls inside a
multi-byte character makes the filename slice miss a character
boundary, so the parse panics (modelled as `none`); the parser is not
total.  The same happens on a final unterminated line whose third
character is the carriage return `str::lines` keeps there. -/
theorem status_parse_panic_cex :
    git_get_status_parse "éé x" = none ∧ byteDrop 3 "éé x".toList = none ∧
    git_get_status_parse "éé\r" = none ∧
    rustLines "éé\r".toList = [['é', 'é', '\r']] :=
  ⟨by decide, by decide, by decide, by decide⟩

/-- C10 (amended): the status parser never panics on inputs in which
every line of at least three characters has only single-byte
characters among its first three, as every real porcelain status line
does. -/
theorem status_parse_total_ascii (s : String)
    (h : ∀ line ∈ rustLines s.toList,
      line.length < 3 ∨ (line.take 3).all (fun c => c.utf8Size == 1) = true) :
    (git_get_status_parse s).isSome = true := by
  have key : ∀ lines : List (List Char),
      (∀ line ∈ lines,
        line.length < 3 ∨ (line.take 3).all (fun c => c.utf8Size == 1) = true) →
      (statusFold lines).isSome = true := by
    intro lines
    induction lines with
    | nil => intro _; rfl
    | cons line rest ih =>
      intro hl
      have hrest : (statusFold rest).isSome = true :=
        ih (fun l hm => hl l (by simp [hm]))
      rcases Nat.lt_or_ge line.length 3 with h3 | h3
      · have hstep : statusFold (line :: rest) = statusFold rest := by
          simp [statusFold, processLine_skip line h3]
        rw [hstep]; exact hrest
      · have hascii : (line.take 3).all (fun c => c.utf8Size == 1) = true := by
          rcases hl line (by simp) with hlt | hok
          · omega
          · exact hok
        obtain ⟨r, hr⟩ := Option.isSome_iff_exists.mp hrest
        have hstep : statusFold (line :: rest) =
            some ((if line.getD 1 ' ' ≠ ' ' then r.1 + 1 else r.1),
                  (if line.getD 0 ' ' ≠ ' ' ∧ line.getD 0 ' ' ≠ '?' then r.2.1 + 1 else r.2.1),
                  line.drop 3 :: r.2.2) := by
          rw [statusFold, processLine_split line h3 hascii, hr]
        rw [hstep]; rfl
  rw [git_get_status_parse]
  obtain ⟨r, hr⟩ := Option.isSome_iff_exists.mp (key _ h)
  rw [hr]
  rfl

/-- Closed witness for C10 (amended): totality on a concrete porcelain
input. -/
theorem status_parse_total_ascii_witness :
    (git_get_status_parse "M  a.txt\n?? b.txt\n").isSome = true :=
  status_parse_total_ascii "M  a.txt\n?? b.txt\n" (by decide)

/-- C4: after detecting the current branch, git_push probes for a
configured upstream with the revision-reference query and passes the
upstream-setting flag to the push command exactly when the probe
fails. -/
theorem git_push_flag_iff_no_upstream (g : Oracle) (r : Option String) (bOut : String)
    (hb : g branchCmd = Except.ok bOut) :
    (git_push g r).trace.map Prod.fst =
      (if (g (probeCmd (rust_trim bOut))).isOk then
        [branchCmd, probeCmd (rust_trim bOut),
         ["push", r.getD "origin", rust_trim bOut]]
      else
        [branchCmd, probeCmd (rust_trim bOut),
         ["push", "-u", r.getD "origin", rust_trim bOut]]) := by
  cases hup : (g (probeCmd (rust_trim bOut))).isOk
  · cases hpush : g ["push", "-u", r.getD "origin", rust_trim bOut] <;>
      simp [git_push, GitRun.bind, runCmd, tryCmd, hb, hup, hpush]
  · cases hpush : g ["push", r.getD "origin", rust_trim bOut] <;>
      simp [git_push, GitRun.bind, runCmd, tryCmd, hb, hup, hpush]

/-- Closed witness for C4: a branch with no upstream gets the
upstream-setting flag. -/
theorem git_push_flag_iff_no_upstream_witness :
    (git_push oracleNoUp none).trace.map Prod.fst =
      [branchCmd, probeCmd "main", ["push", "-u", "origin", "main"]] := by
  have h := git_push_flag_iff_no_upstream oracleNoUp none "main\n" rfl
  rw [h]
  decide

/-- C5 counterexample: on a branch with no upstream configured, the
standalone push succeeds (it probes and passes the upstream-setting
flag) and pull-then-push succeeds, while git_sync fails: its push half
never probes and never passes the flag, so sync is not equivalent to
the pull operation followed by the push operation. -/
theorem git_sync_not_pull_then_push_cex :
    (git_sync oracleNoUp none).res.isOk = false ∧
    (pullThenPush oracleNoUp none).res.isOk = true ∧
    (git_push oracleNoUp none).res.isOk = true ∧
    probeCmd "main" ∉ (git_sync oracleNoUp none).trace.map Prod.fst :=
  ⟨by decide, by decide, by decide, by decide⟩

/-- C5 (amended): git_sync is the pull operation followed by a plain
push of the detected branch, with no upstream probe and never the
upstream-setting flag; whenever the detected branch already has an
upstream configured (the probe succeeds), its result coincides with
performing the pull operation and then the push operation. -/
theorem git_sync_plain_push_equiv (g : Oracle) (r : Option String) (bOut : String)
    (hb : g branchCmd = Except.ok bOut)
    (hup : (g (probeCmd (rust_trim bOut))).isOk = true) :
    (git_sync g r).res = (pullThenPush g r).res ∧
    (git_sync g r).trace.map Prod.fst =
      (if (g ["pull", r.getD "origin", rust_trim bOut]).isOk then
        [branchCmd, ["pull", r.getD "origin", rust_trim bOut],
         ["push", r.getD "origin", rust_trim bOut]]
      else
        [branchCmd, ["pull", r.getD "origin", rust_trim bOut]]) := by
  constructor
  · cases hpull : g ["pull", r.getD "origin", rust_trim bOut] with
    | error e =>
      simp [git_sync, pullThenPush, git_pull, git_push, GitRun.bind, runCmd, tryCmd,
        hb, hpull]
    | ok v =>
      cases hpush : g ["push", r.getD "origin", rust_trim bOut] with
      | error e =>
        simp [git_sync, pullThenPush, git_pull, git_push, GitRun.bind, runCmd, tryCmd,
          hb, hpull, hup, hpush]
      | ok w =>
        simp [git_sync, pullThenPush, git_pull, git_push, GitRun.bind, runCmd, tryCmd,
          hb, hpull, hup, hpush]
  · cases hpull : g ["pull", r.getD "origin", rust_trim bOut] with
    | error e =>
      simp [git_sync, GitRun.bind, runCmd, hb, hpull, Except.isOk, Except.toBool]
    | ok v =>
      cases hpush : g ["push", r.getD "origin", rust_trim bOut] <;>
        simp [git_sync, GitRun.bind, runCmd, hb, hpull, hpush, Except.isOk, Except.toBool]

/-- Closed witness for C5 (amended): with an upstream configured, sync
and pull-then-push agree. -/
theorem git_sync_plain_push_equiv_witness :
    (git_sync oracleUp none).res = (pullThenPush oracleUp none).res := by
  have h := git_sync_plain_push_equiv oracleUp none "main\n" rfl (by decide)
  exact h.1

/-- C6: re-registering a path that is already a key of the watch
registry succeeds and leaves the registry, including the existing
registration, completely unchanged, creating nothing new (the
environment is irrelevant: creation is never attempted). -/
theorem watch_file_idempotent (env : WatchEnv) (reg : List (String × WatchEntry))
    (p : String) (hp : rustHasParent p = true) (hf : (rustFileName p).isSome = true)
    (hmem : containsKey reg (fileKey p) = true) :
    watch_file env reg p = (Except.ok (), reg) := by
  obtain ⟨f, hf2⟩ := Option.isSome_iff_exists.mp hf
  simp [watch_file, hp, hf2, hmem]

/-- Closed witness for C6: a second registration of a/b.txt is a
no-op even in an environment where watcher creation would fail. -/
theorem watch_file_idempotent_witness :
    watch_file envBad regOne "a/b.txt" = (Except.ok (), regOne) :=
  watch_file_idempotent envBad regOne "a/b.txt" (by decide) (by decide) (by decide)

/-- C7 counterexample: the single-file key namespace is not disjoint
from the workspace key namespace: the file path workspace:/a is
accepted by watch_file and registered under the literal key
workspace:/a, which is exactly the key watch_workspace uses for the
workspace path /a; a subsequent workspace registration for /a is then
silently swallowed as already watching. -/
theorem watch_key_collision_cex :
    fileKey "workspace:/a" = workspaceKey "/a" ∧
    (watch_file envOk [] "workspace:/a").1 = Except.ok () ∧
    (watch_file envOk [] "workspace:/a").2 =
      [(workspaceKey "/a", WatchEntry.fileWatch "workspace:/a" "a")] ∧
    watch_workspace envOk [(workspaceKey "/a", WatchEntry.fileWatch "workspace:/a" "a")] "/a" =
      (Except.ok (), [(workspaceKey "/a", WatchEntry.fileWatch "workspace:/a" "a")]) :=
  ⟨rfl, rfl, by rfl, by rfl⟩

/-- C7 (amended): the two key namespaces are disjoint for every file
path that does not itself begin with the scope marker workspace: —
for such paths no workspace key can coincide with the file key. -/
theorem watch_key_disjoint_amended (p1 p2 : String)
    (h : p1.toList.take 10 ≠ "workspace:".toList) :
    fileKey p1 ≠ workspaceKey p2 := by
  intro he
  apply h
  have he2 : p1.toList = "workspace:".toList ++ p2.toList := by
    rw [show p1 = workspaceKey p2 from he, workspaceKey, string_toList_append]
  rw [he2]
  have hlen : ("workspace:".toList).length = 10 := by decide
  rw [← hlen, List.take_left]

/-- Closed witness for C7 (amended): an ordinary file key differs from
an arbitrary workspace key. -/
theorem watch_key_disjoint_amended_witness :
    fileKey "/notes/a.md" ≠ workspaceKey "/x" :=
  watch_key_disjoint_amended "/notes/a.md" "/x" (by decide)

/-- C8: close always succeeds and removes the session; any write to a
closed session fails with the session-not-found error; a write to a
live, healthy session appends the data (whose bytes are written and
flushed) to that session and succeeds. -/
theorem terminal_write_close_spec (reg : List (String × TermSession)) (S data : String) :
    close_terminal reg S = (Except.ok (), removeKey reg S) ∧
    lookupKey (close_terminal reg S).2 S = none ∧
    (∀ d, write_terminal (close_terminal reg S).2 S d =
      (Except.error "Session not found", removeKey reg S)) ∧
    (∀ s, lookupKey reg S = some s → s.writeErr = none → s.flushErr = none →
      write_terminal reg S data =
        (Except.ok (), updateKey reg S { s with written := s.written ++ [data] })) := by
  refine ⟨rfl, lookupKey_removeKey reg S, ?_, ?_⟩
  · intro d
    have hnone : lookupKey (close_terminal reg S).2 S = none := lookupKey_removeKey reg S
    simp [write_terminal, close_terminal] at hnone ⊢
    rw [hnone]
  · intro s hs hw hf
    simp [write_terminal, hs, hw, hf]

/-- Closed witness for C8: writing to the live session s1 appends the
chunk; writing to s1 after closing it fails with session-not-found. -/
theorem terminal_write_close_spec_witness :
    write_terminal termReg "s1" "echo hi\n" =
      (Except.ok (), updateKey termReg "s1" ⟨none, none, ["ls\n", "echo hi\n"]⟩) ∧
    write_terminal (close_terminal termReg "s1").2 "s1" "x" =
      (Except.error "Session not found", removeKey termReg "s1") := by
  constructor
  · have h := (terminal_write_close_spec termReg "s1" "echo hi\n").2.2.2
      ⟨none, none, ["ls\n"]⟩ rfl rfl rfl
    simpa using h
  · exact (terminal_write_close_spec termReg "s1" "x").2.2.1 "x"

/-- C1: for a registration for path P with target filename F (the
filename component of P), a debounced batch produces the file-changed
event exactly when some event path, NFC-normalized, ends with the
NFC-normalized F, or some event path filename component,
NFC-normalized, equals the NFC-normalized F; at most one event is
emitted per batch, and its payload is the originally requested path
string P. -/
theorem watcher_emit_iff_match (nfc : String → String) (P F : String)
    (events : List DebEvent) (hF : rustFileName P = some F) :
    ((watcherCallback nfc P F events = [("file-changed", P)]) ↔
      ∃ e ∈ events, ∃ p ∈ e.paths,
        (ends_with (nfc p.full) (nfc F) = true ∨
          ∃ n, p.name = some n ∧ nfc n = nfc F)) ∧
    (watcherCallback nfc P F events).length ≤ 1 ∧
    (∀ ev ∈ watcherCallback nfc P F events, ev = ("file-changed", P)) := by
  refine ⟨?_, ?_, ?_⟩
  · rw [← shouldEmit_iff nfc F events]
    cases hse : shouldEmit nfc F events <;> simp [watcherCallback, hse]
  · cases hse : shouldEmit nfc F events <;> simp [watcherCallback, hse]
  · cases hse : shouldEmit nfc F events <;> simp [watcherCallback, hse]

/-- Closed witness for C1: an atomic-save batch whose second event
path is the watched file yields exactly the single file-changed event
carrying the requested path. -/
theorem watcher_emit_iff_match_witness :
    watcherCallback (fun s => s) "/tmp/notes.md" "notes.md" cexEvents =
      [("file-changed", "/tmp/notes.md")] := by
  refine (watcher_emit_iff_match (fun s => s) "/tmp/notes.md" "notes.md" cexEvents
    (by decide)).1.mpr ?_
  refine ⟨⟨[⟨"/x/.tmp123", some ".tmp123"⟩, ⟨"/x/notes.md", some "notes.md"⟩]⟩,
    by simp [cexEvents], ⟨"/x/notes.md", some "notes.md"⟩, by simp, Or.inl (by decide)⟩
